import Mathlib

/-!
Verification of the protocol staging reconciliation engine of
`node_util.py` (casper-node-launcher maintainer scripts).

The Python script is shallowly embedded: the filesystem state relevant to
one protocol version is a record of file/directory presence and contents,
network answers are passed in as values (`none` models a non-200 reply),
`exit(n)` and uncaught exceptions are explicit outcome constructors, and
every helper of the script becomes a pure Lean function over these
records.  All definitions follow the Python source line by line.
-/

set_option autoImplicit false

namespace NodeUtil

/-- The `Status` enumeration of `node_util.py`. -/
inductive Status where
  | UNSTAGED
  | NO_CONFIG
  | BIN_ONLY
  | CONFIG_ONLY
  | STAGED
  | WRONG_NETWORK
  deriving DecidableEq, Repr

/-- Abnormal terminations of the Python process:
`sysExit c` models `exit(c)`, `raised` models an uncaught exception
(`IOError` from a failed download, `FileNotFoundError` from `read_text`
on a missing file). -/
inductive PyErr where
  | sysExit (code : Nat)
  | raised
  deriving DecidableEq, Repr

instance {ε α : Type} [DecidableEq ε] [DecidableEq α] :
    DecidableEq (Except ε α) := fun x y =>
  match x, y with
  | .ok a, .ok b =>
      if h : a = b then isTrue (by rw [h]) else isFalse (by simp [h])
  | .error e, .error f =>
      if h : e = f then isTrue (by rw [h]) else isFalse (by simp [h])
  | .ok _, .error _ => isFalse (by simp)
  | .error _, .ok _ => isFalse (by simp)

/--
On-disk state of one protocol version, as probed by the script:
  * `configDirExists`  — `CONFIG_PATH / version` (directory);
  * `binDirExists`     — `BIN_PATH / version` (directory);
  * `casperNodeExists` — `BIN_PATH / version / "casper-node"` (file);
  * `chainspec`        — lines of `CONFIG_PATH / version / chainspec.toml`,
                         `none` when the file is absent;
  * `configToml`       — content of `config.toml`, `none` when absent;
  * `configTomlNew`    — content of `config.toml.new`, `none` when absent;
  * `configExample`    — content of `config-example.toml`, `none` when absent.
-/
structure VersionFs where
  configDirExists : Bool
  binDirExists : Bool
  casperNodeExists : Bool
  chainspec : Option (List String)
  configToml : Option String
  configTomlNew : Option String
  configExample : Option String
  deriving DecidableEq, Repr

/-- Python `line[:len(pre)] == pre`. -/
def py_startswith (s pre : String) : Bool :=
  pre.data.isPrefixOf s.data

/-- Scanner for `py_split`: the fuel (initially the string length) bounds
the number of steps, so the recursion is structural and kernel-reducible;
each step either consumes the separator (emitting a piece) or one
character. -/
def splitOnAux (sep : List Char) : Nat → List Char → List Char → List (List Char)
  | 0, s, acc => [acc.reverse ++ s]
  | _ + 1, [], acc => [acc.reverse]
  | fuel + 1, c :: rest, acc =>
      if sep.isPrefixOf (c :: rest) then
        acc.reverse :: splitOnAux sep fuel ((c :: rest).drop sep.length) []
      else splitOnAux sep fuel rest (c :: acc)

/-- Python `s.split(sep)` for a non-empty separator: splits on each
non-overlapping occurrence, left to right, keeping empty pieces.  (The
script never calls it with an empty separator, on which Python raises
`ValueError`; the model returns `[s]` there.) -/
def py_split (s sep : String) : List String :=
  if sep.data = [] then [s]
  else (splitOnAux sep.data s.data.length s.data []).map (fun l => ⟨l⟩)

/-- Scanner for `py_replace`, fuel-bounded like `splitOnAux`. -/
def replaceAux (pat rep : List Char) : Nat → List Char → List Char
  | 0, s => s
  | _ + 1, [] => []
  | fuel + 1, c :: rest =>
      if pat.isPrefixOf (c :: rest) then
        rep ++ replaceAux pat rep fuel ((c :: rest).drop pat.length)
      else c :: replaceAux pat rep fuel rest

/-- Python `s.replace(pat, rep)` for a non-empty pattern: replaces every
non-overlapping occurrence, left to right. -/
def py_replace (s pat rep : String) : String :=
  if pat.data = [] then s
  else ⟨replaceAux pat.data rep.data s.data.length s.data⟩

/-- `NodeUtil._chainspec_name`: scan the lines for the first one starting
with the literal `name = '` and return
`line.split("name = '")[1].split("'")[0]`; the Python function returns
`None` when no line matches. -/
def chainspec_name (lines : List String) : Option String :=
  match lines.find? (fun line => py_startswith line "name = '") with
  | none => none
  | some line =>
      some ((py_split ((py_split line "name = '").getD 1 "") "'").getD 0 "")

/-- `NodeUtil._check_staged_version`.  The guard `if not self._network_name`
prints and calls `exit(1)`; reading a missing `chainspec.toml` raises
`FileNotFoundError` (modelled by `PyErr.raised`).  Otherwise the function
is a pure cascade over the probed filesystem state. -/
def check_staged_version (networkName : String) (fs : VersionFs) :
    Except PyErr Status :=
  if networkName = "" then .error (.sysExit 1)
  else if !fs.configDirExists then
    if !fs.casperNodeExists then .ok .UNSTAGED
    else .ok .BIN_ONLY
  else if !fs.casperNodeExists then .ok .CONFIG_ONLY
  else if fs.configToml.isNone then .ok .NO_CONFIG
  else
    match fs.chainspec with
    | none => .error .raised
    | some lines =>
        if chainspec_name lines ≠ some networkName then .ok .WRONG_NETWORK
        else .ok .STAGED

/-- One occurrence count, as `collections.Counter` computes it. -/
def count_occs (l : List String) (x : String) : Nat :=
  (l.filter (fun y => y = x)).length

/-- The distinct elements of `l` in first-insertion order — the key order
of `collections.Counter(l)`. -/
def counter_keys (l : List String) : List String :=
  l.foldl (fun ks x => if x ∈ ks then ks else ks ++ [x]) []

/-- `Counter(l).most_common(1)[0][0]`: an element of maximal multiplicity;
`most_common` sorts by count descending with a stable sort over the
insertion-ordered keys, so ties go to the earliest-inserted element. -/
def most_common_first (l : List String) : Option String :=
  (counter_keys l).foldl
    (fun best k =>
      match best with
      | none => some k
      | some b => if count_occs l k > count_occs l b then some k else best)
    none

/-- `NodeUtil._is_valid_ip`, i.e. `ipaddress.ip_address` used as a syntax
check.  The embedding models the IPv4 dotted-quad grammar (four decimal
octets, each 0–255, digits only, no leading zeros); IPv6 literals are
outside the model — every address appearing in the development is an IPv4
literal or a non-address string, on which this model and `ipaddress`
agree. -/
def digitsToNat (p : List Char) : Nat :=
  p.foldl (fun n c => 10 * n + (c.toNat - 48)) 0

def is_valid_ip (ip : String) : Bool :=
  let parts := py_split ip "."
  parts.length == 4 &&
    parts.all (fun part =>
      let p := part.data
      !p.isEmpty && p.all Char.isDigit &&
        digitsToNat p ≤ 255 && (p.length == 1 || p.headD 'x' != '0'))

/--
`NodeUtil._get_external_ip`.  `cached` is `self._external_ip`;
`responses` holds, per echo service, `none` for a non-200 reply and
`some s` for a 200 reply whose stripped body is `s` (a stripped empty
body is appended to `ips` only when non-empty, exactly as
`if ip: ips.append(ip)`).  Returns the Python return value together with
the new `self._external_ip`.  Note the source validates only the winner
of `most_common(1)`, after the vote, not the individual answers.
-/
def get_external_ip (cached : Option String) (responses : List (Option String)) :
    Option String × Option String :=
  match cached with
  | some ip => (some ip, some ip)
  | none =>
      let ips := responses.filterMap (fun r =>
        match r with
        | none => none
        | some s => if s = "" then none else some s)
      match most_common_first ips with
      | none => (none, none)
      | some winner =>
          if is_valid_ip winner then (some winner, some winner)
          else (none, none)

/-- Ambient process state threaded through the orchestrator: execution
identity, presence of the two filesystem roots, and the loaded
`NetworkConfig`'s network name. -/
structure Global where
  user_is_casper : Bool
  binRootExists : Bool
  configRootExists : Bool
  networkName : String
  deriving DecidableEq, Repr

/-- Result of `NodeUtil._config_from_example`: the Python function either
calls `exit(code)` or falls off the end returning `None`. -/
inductive MatOutcome where
  | exited (code : Nat)
  | returned
  deriving DecidableEq, Repr

/--
`NodeUtil._config_from_example`.  `ipArg` is the `ip` parameter
(`None` → consult `_get_external_ip`, whose cache is threaded through as
`cache`/returned second component).  A `None` resolved ip fails
`_is_valid_ip` (`ipaddress.ip_address(None)` raises `ValueError`), hence
`exit(1)`.  The output file is `config.toml`, or `config.toml.new` when
`config.toml` already exists; its content is the template with every
occurrence of `"<IP ADDRESS>"` replaced by the address, exactly
`str.replace`.
-/
def config_from_example (g : Global) (ipArg : Option String)
    (cache : Option String) (responses : List (Option String))
    (fs : VersionFs) : MatOutcome × Option String × VersionFs :=
  if !g.user_is_casper then (.exited 1, cache, fs)
  else
    match fs.configExample with
    | none => (.exited 1, cache, fs)
    | some tmpl =>
        let resolved : Option String × Option String :=
          match ipArg with
          | some i => (some i, cache)
          | none => get_external_ip cache responses
        match resolved with
        | (none, cache') => (.exited 1, cache', fs)
        | (some ip, cache') =>
            if !is_valid_ip ip then (.exited 1, cache', fs)
            else
              let content := py_replace tmpl "<IP ADDRESS>" ip
              match fs.configToml with
              | some _ =>
                  (.returned, cache', { fs with configTomlNew := some content })
              | none =>
                  (.returned, cache', { fs with configToml := some content })

/-- What extracting `config.tar.gz` for one version puts into the version
config directory (the archive ships `chainspec.toml` and
`config-example.toml`). -/
structure ConfigArchive where
  chainspec : Option (List String)
  configExample : Option String
  deriving DecidableEq, Repr

/-- What extracting the binary archive puts into the version bin
directory. -/
structure BinArchive where
  hasCasperNode : Bool
  deriving DecidableEq, Repr

/-- Network answers for one version's two archive URLs; `none` models a
non-200 reply (`_download_file` raises `IOError`). -/
structure VersionNet where
  configArchive : Option ConfigArchive
  binArchive : Option BinArchive
  deriving DecidableEq, Repr

/-- Result of `NodeUtil._pull_protocol_version`: `exit(code)`, an uncaught
`IOError` from a failed download, or a normal return (Python returns
`None`). -/
inductive PullOutcome where
  | exited (code : Nat)
  | raised
  | returned
  deriving DecidableEq, Repr

/-- Effect of `_extract_tar_gz(config.tar.gz, CONFIG_PATH/version)` on the
version's state. -/
def extract_config_archive (ca : ConfigArchive) (fs : VersionFs) : VersionFs :=
  { fs with configDirExists := true, chainspec := ca.chainspec,
            configExample := ca.configExample }

/-- Effect of extracting the binary archive into `BIN_PATH/version`. -/
def extract_bin_archive (ba : BinArchive) (fs : VersionFs) : VersionFs :=
  { fs with binDirExists := true, casperNodeExists := ba.hasCasperNode }

/--
`NodeUtil._pull_protocol_version`: verify the casper user and both roots
(`exit(1)` otherwise), abort with `exit(1)` when `CONFIG_PATH/version`
or `BIN_PATH/version` already exists, then download and extract the
config archive followed by the binary archive (a non-200 download raises
`IOError`, uncaught).  The temp archive files are deleted after each
extraction and are not part of the per-version state.
-/
def pull_protocol_version (g : Global) (net : VersionNet) (fs : VersionFs) :
    PullOutcome × VersionFs :=
  if !g.user_is_casper then (.exited 1, fs)
  else if !g.binRootExists then (.exited 1, fs)
  else if !g.configRootExists then (.exited 1, fs)
  else if fs.configDirExists then (.exited 1, fs)
  else if fs.binDirExists then (.exited 1, fs)
  else
    match net.configArchive with
    | none => (.raised, fs)
    | some ca =>
        let fs1 := extract_config_archive ca fs
        match net.binArchive with
        | none => (.raised, fs1)
        | some ba => (.returned, extract_bin_archive ba fs1)

/-- One catalog version as the orchestrator sees it: its on-disk state and
the network's answers for its archives. -/
structure VersionCtx where
  fs : VersionFs
  net : VersionNet
  deriving DecidableEq, Repr

/--
One iteration of the `stage_protocols` loop body for version `v`.
Returns (abnormal termination if any, whether `exit_code` was set to 1,
new ip cache, new on-disk state).  Faithful to the source:
  * `STAGED` prints and continues, no flag;
  * `BIN_ONLY`/`CONFIG_ONLY` flag and continue;
  * `WRONG_NETWORK` matches none of the branches and falls through the
    loop body without setting `exit_code`;
  * for `UNSTAGED`, `if not self._pull_protocol_version(...)` tests the
    `None` the call returns, so the flag is set even when the pull
    succeeded, and likewise `if not self._config_from_example(...)` for
    `UNSTAGED`/`NO_CONFIG`;
  * any `exit()` or uncaught exception inside a helper terminates the
    whole process (there is no try/except in `stage_protocols`).
-/
def step_version (g : Global) (ipArg : Option String)
    (responses : List (Option String)) (cache : Option String)
    (v : VersionCtx) : Option PyErr × Bool × Option String × VersionFs :=
  match check_staged_version g.networkName v.fs with
  | .error e => (some e, false, cache, v.fs)
  | .ok .STAGED => (none, false, cache, v.fs)
  | .ok .BIN_ONLY => (none, true, cache, v.fs)
  | .ok .CONFIG_ONLY => (none, true, cache, v.fs)
  | .ok .WRONG_NETWORK => (none, false, cache, v.fs)
  | .ok .UNSTAGED =>
      match pull_protocol_version g v.net v.fs with
      | (.exited c, fs1) => (some (.sysExit c), false, cache, fs1)
      | (.raised, fs1) => (some .raised, false, cache, fs1)
      | (.returned, fs1) =>
          match config_from_example g ipArg cache responses fs1 with
          | (.exited c, cache', fs2) => (some (.sysExit c), false, cache', fs2)
          | (.returned, cache', fs2) => (none, true, cache', fs2)
  | .ok .NO_CONFIG =>
      match config_from_example g ipArg cache responses v.fs with
      | (.exited c, cache', fs2) => (some (.sysExit c), false, cache', fs2)
      | (.returned, cache', fs2) => (none, true, cache', fs2)

/-- The reconciliation loop of `stage_protocols` over the catalog, threading
the ip cache and the `exit_code` flag; on abnormal termination the
remaining versions keep their initial on-disk state.  Returns (abnormal
termination if any, flag, final per-version states). -/
def stage_loop (g : Global) (ipArg : Option String)
    (responses : List (Option String)) :
    Option String → List VersionCtx → Option PyErr × Bool × List VersionFs
  | _, [] => (none, false, [])
  | cache, v :: rest =>
      match step_version g ipArg responses cache v with
      | (some e, _, _, fs') => (some e, false, fs' :: rest.map VersionCtx.fs)
      | (none, flagged, cache', fs') =>
          let r := stage_loop g ipArg responses cache' rest
          (r.1, flagged || r.2.1, fs' :: r.2.2)

/-- How the `stage_protocols` process ends: the final `exit(exit_code)`,
an early `exit(code)` from a helper, or an uncaught exception (which
makes the Python interpreter exit with code 1 and a traceback). -/
inductive RunOutcome where
  | completed (code : Nat)
  | exitedEarly (code : Nat)
  | crashed
  deriving DecidableEq, Repr

/--
`NodeUtil.stage_protocols`, after `_load_config_values` succeeded (the
loaded network name is `g.networkName`) and with the catalog returned by
`_get_protocols` given as `vs`.  `ipArg` is `--ip` (already validated by
argparse), `responses` the echo services' answers.
-/
def stage_protocols (g : Global) (ipArg : Option String)
    (responses : List (Option String)) (vs : List VersionCtx) :
    RunOutcome × List VersionFs :=
  if !g.user_is_casper then (.exitedEarly 1, vs.map VersionCtx.fs)
  else
    match stage_loop g ipArg responses none vs with
    | (some (.sysExit c), _, fss) => (.exitedEarly c, fss)
    | (some .raised, _, fss) => (.crashed, fss)
    | (none, flagged, fss) => (.completed (if flagged then 1 else 0), fss)

/-- The exit code of the operating-system process for each outcome. -/
def process_exit_code : RunOutcome → Nat
  | .completed c => c
  | .exitedEarly c => c
  | .crashed => 1

/-- A tar archive member: its name split into path components (which may
contain `".."`), and its content. -/
structure TarMember where
  path : List String
  content : String
  deriving DecidableEq, Repr

/-- Lexical resolution of `os.path.join(target, member_name)` as the
kernel resolves it when the file is created (assuming no symlinks):
`".."` pops a component, `"."` is skipped. -/
def resolvePath (base : List String) (member : List String) : List String :=
  member.foldl
    (fun acc c =>
      if c = ".." then acc.dropLast
      else if c = "." then acc
      else acc ++ [c])
    base

/-- A flat file store: association list from resolved path to content,
newest entry first (so `lookupFile` sees the latest write). -/
abbrev Files := List (List String × String)

def writeFile (files : Files) (p : List String) (content : String) : Files :=
  (p, content) :: files

def lookupFile (files : Files) (p : List String) : Option String :=
  files.lookup p

/-- `NodeUtil._extract_tar_gz`: `for member in tf.getmembers():
tf.extract(member, target_path)` — every member is written at the join of
the target path and the member's name, with no check of any kind on the
member's path. -/
def extract_tar_gz (target : List String) (members : List TarMember)
    (files : Files) : Files :=
  members.foldl
    (fun acc m => writeFile acc (resolvePath target m.path) m.content)
    files

end NodeUtil

open NodeUtil

/-- C4 counterexample: on the filesystem state where the config directory,
the binary and `config.toml` are all present but `chainspec.toml` is
absent, `_check_staged_version` does not return a status: `read_text()`
raises `FileNotFoundError`, so the claim "never fails with an exception
on every filesystem state" is false at this concrete state. -/
theorem check_staged_version_raises_on_missing_chainspec :
    check_staged_version "casper"
      ⟨true, true, true, none, some "cfg", none, none⟩ =
      Except.error PyErr.raised := rfl

/-- C4 (amended): classification is total and exception-free — it returns
exactly one of the six `Status` values — on every filesystem state in
which `chainspec.toml` is present whenever the config directory, the
binary, and `config.toml` all are.  (Purity and absence of mutation hold
by construction: `check_staged_version` is a function of the probed state
and returns no modified state.) -/
theorem check_staged_version_total_when_chainspec_readable
    (networkName : String) (fs : VersionFs)
    (hnn : networkName ≠ "")
    (hcs : fs.configDirExists = true → fs.casperNodeExists = true →
      fs.configToml.isSome → fs.chainspec.isSome) :
    ∃ s : Status, check_staged_version networkName fs = Except.ok s := by
  obtain ⟨cd, bd, cn, cs, ct, ctn, ce⟩ := fs
  simp only at hcs
  simp only [check_staged_version, if_neg hnn]
  cases cd with
  | false => cases cn <;> exact ⟨_, rfl⟩
  | true =>
    cases cn with
    | false => exact ⟨_, rfl⟩
    | true =>
      cases ct with
      | none => exact ⟨_, rfl⟩
      | some c =>
        obtain ⟨lines, hl⟩ := Option.isSome_iff_exists.mp (hcs rfl rfl rfl)
        subst hl
        simp only [Option.isNone_some, Bool.false_eq_true, if_false]
        by_cases h : chainspec_name lines = some networkName
        · exact ⟨.STAGED, by simp [h]⟩
        · exact ⟨.WRONG_NETWORK, by simp [h]⟩

/-- C5 counterexample: when the three echo services answer with three
pairwise distinct (valid) addresses, `_get_external_ip` does not return
`None` as the claim states: `Counter.most_common(1)` breaks the 1-1-1 tie
by insertion order, so the first service's answer is returned. -/
theorem get_external_ip_not_none_on_pairwise_disagreement :
    get_external_ip none [some "1.1.1.1", some "2.2.2.2", some "3.3.3.3"] =
      (some "1.1.1.1", some "1.1.1.1") := by decide

/-- C5 (amended): `_get_external_ip` returns the most frequent non-empty
response, ties broken by service order, and validates only that winner:
a 2-1 split of answers yields the majority answer when it is a valid
address; three failures yield `none`; three pairwise distinct answers
yield the first service's answer (not `none`); and a majority of
syntactically invalid answers yields `none` even when a minority answer
is a valid address. -/
theorem get_external_ip_plurality_amended (a b c : String)
    (hA : a ≠ "") (hB : b ≠ "") (hC : c ≠ "")
    (hab : a ≠ b) (hac : a ≠ c) (hbc : b ≠ c)
    (ha : is_valid_ip a = true) (hbad : is_valid_ip b = false) :
    get_external_ip none [some a, some a, some b] = (some a, some a) ∧
    get_external_ip none [some a, some b, some a] = (some a, some a) ∧
    get_external_ip none [some b, some a, some a] = (some a, some a) ∧
    get_external_ip none [none, none, none] = (none, none) ∧
    get_external_ip none [some a, some b, some c] = (some a, some a) ∧
    get_external_ip none [some b, some b, some a] = (none, none) := by
  have hba : b ≠ a := Ne.symm hab
  have hca : c ≠ a := Ne.symm hac
  have hcb : c ≠ b := Ne.symm hbc
  refine ⟨?_, ?_, ?_, rfl, ?_, ?_⟩ <;>
    simp [get_external_ip, most_common_first, counter_keys, count_occs,
      hA, hB, hC, hab, hac, hbc, hba, hca, hcb, ha, hbad, List.filter]

/-- Witness for the amended C5 at concrete service answers. -/
theorem get_external_ip_plurality_amended_witness :
    get_external_ip none [some "1.1.1.1", some "1.1.1.1", some "notanip"] =
        (some "1.1.1.1", some "1.1.1.1") ∧
      get_external_ip none [some "1.1.1.1", some "notanip", some "1.1.1.1"] =
        (some "1.1.1.1", some "1.1.1.1") ∧
      get_external_ip none [some "notanip", some "1.1.1.1", some "1.1.1.1"] =
        (some "1.1.1.1", some "1.1.1.1") ∧
      get_external_ip none [none, none, none] = (none, none) ∧
      get_external_ip none [some "1.1.1.1", some "notanip", some "2.2.2.2"] =
        (some "1.1.1.1", some "1.1.1.1") ∧
      get_external_ip none [some "notanip", some "notanip", some "1.1.1.1"] =
        (none, none) :=
  get_external_ip_plurality_amended "1.1.1.1" "notanip" "2.2.2.2"
    (by decide) (by decide) (by decide) (by decide) (by decide) (by decide)
    (by decide) (by decide)

/-- C10: the external address is cached across calls within one run:
a call with a populated cache returns the cached address for every
possible set of service answers (no dependence on the services at all);
a first call that returns an address also stores exactly that address in
the cache; and materializing a config with no `--ip` under a populated
cache writes the cached address into the produced `config.toml` and
leaves the cache unchanged — so all configs materialized in one run use
the same address. -/
theorem get_external_ip_cached_is_stable (ip : String) :
    (∀ responses, get_external_ip (some ip) responses = (some ip, some ip)) ∧
    (∀ responses ipR, (get_external_ip none responses).1 = some ipR →
      (get_external_ip none responses).2 = some ipR) ∧
    (∀ (g : Global) (responses : List (Option String)) (fs : VersionFs)
        (tmpl : String),
      g.user_is_casper = true → fs.configExample = some tmpl →
      fs.configToml = none → is_valid_ip ip = true →
      config_from_example g none (some ip) responses fs =
        (.returned, some ip,
          { fs with configToml := some (py_replace tmpl "<IP ADDRESS>" ip) })) := by
  refine ⟨fun _ => rfl, ?_, ?_⟩
  · intro responses ipR h
    unfold get_external_ip at h ⊢
    rcases hm : most_common_first (responses.filterMap (fun r =>
        match r with
        | none => none
        | some s => if s = "" then none else some s)) with - | winner <;>
      simp only [hm] at h ⊢
    · simp at h
    · by_cases hv : is_valid_ip winner <;> simp [hv] at h ⊢
      exact h
  · intro g responses fs tmpl hu htmpl hct hip
    simp [config_from_example, hu, htmpl, hct, hip, get_external_ip]

/-- Witness for C10 at a concrete cached address and concrete run. -/
theorem get_external_ip_cached_is_stable_witness :
    get_external_ip (some "1.2.3.4") [some "9.9.9.9", none, some "8.8.8.8"] =
        (some "1.2.3.4", some "1.2.3.4") ∧
      config_from_example ⟨true, true, true, "casper"⟩ none (some "1.2.3.4") []
          ⟨true, true, true, none, none, none, some "addr = '<IP ADDRESS>:35000'"⟩ =
        (.returned, some "1.2.3.4",
          ⟨true, true, true, none, some "addr = '1.2.3.4:35000'", none,
            some "addr = '<IP ADDRESS>:35000'"⟩) := by
  refine ⟨(get_external_ip_cached_is_stable "1.2.3.4").1 _, ?_⟩
  have h := (get_external_ip_cached_is_stable "1.2.3.4").2.2
    ⟨true, true, true, "casper"⟩ []
    ⟨true, true, true, none, none, none, some "addr = '<IP ADDRESS>:35000'"⟩
    "addr = '<IP ADDRESS>:35000'" rfl rfl rfl (by decide)
  rw [h]
  decide

/-- C7: when `config.toml` already exists, `_config_from_example` leaves it
byte-for-byte unchanged and writes `config.toml.new`, whose content is
exactly the template with every occurrence of `"<IP ADDRESS>"` replaced
by the given address (plain `str.replace`, no reformatting); all other
per-version files are untouched. -/
theorem config_from_example_preserves_existing_config
    (g : Global) (cache : Option String) (responses : List (Option String))
    (fs : VersionFs) (tmpl old ip : String)
    (hu : g.user_is_casper = true)
    (htmpl : fs.configExample = some tmpl)
    (hold : fs.configToml = some old)
    (hip : is_valid_ip ip = true) :
    config_from_example g (some ip) cache responses fs =
      (.returned, cache,
        { fs with configTomlNew := some (py_replace tmpl "<IP ADDRESS>" ip) }) ∧
    ({ fs with configTomlNew := some (py_replace tmpl "<IP ADDRESS>" ip)
        } : VersionFs).configToml = some old := by
  constructor
  · simp [config_from_example, hu, htmpl, hold, hip]
  · simpa using hold

/-- Witness for C7: the address round-trips byte-for-byte into
`config.toml.new` while `config.toml` keeps its old bytes. -/
theorem config_from_example_preserves_existing_config_witness :
    config_from_example ⟨true, true, true, "casper"⟩ (some "1.2.3.4") none []
        ⟨true, true, true, none, some "operator edited", none,
          some "addr = '<IP ADDRESS>:35000'"⟩ =
      (.returned, none,
        ⟨true, true, true, none, some "operator edited",
          some "addr = '1.2.3.4:35000'", some "addr = '<IP ADDRESS>:35000'"⟩) := by
  have h := config_from_example_preserves_existing_config
    ⟨true, true, true, "casper"⟩ none []
    ⟨true, true, true, none, some "operator edited", none,
      some "addr = '<IP ADDRESS>:35000'"⟩
    "addr = '<IP ADDRESS>:35000'" "operator edited" "1.2.3.4"
    rfl rfl rfl (by decide)
  rw [h.1]
  decide

/-- C6 counterexample: extracting an archive whose sole member is named
`../evil` into `/etc/casper/1_0_0` succeeds (the source has no check of
any kind) and creates a file at `/etc/casper/evil`, outside the target
directory — no `ExtractionError`, and a file is written outside
`targetDir`, contrary to the claim. -/
theorem extract_tar_gz_traversal_escapes :
    extract_tar_gz ["etc", "casper", "1_0_0"] [⟨["..", "evil"], "payload"⟩] [] =
      [(["etc", "casper", "evil"], "payload")] ∧
    (["etc", "casper", "1_0_0"].isPrefixOf ["etc", "casper", "evil"]) = false := by
  decide

/-- C6 (amended): `_extract_tar_gz` applies no path-traversal guard at
all: every member — including one whose path escapes the target
directory — is written at the lexical resolution of the target joined
with the member's path, and extraction never fails on such a member. -/
theorem extract_tar_gz_writes_members_unconditionally
    (target mpath : List String) (content : String) (files : Files) :
    lookupFile (extract_tar_gz target [⟨mpath, content⟩] files)
      (resolvePath target mpath) = some content := by
  simp [extract_tar_gz, lookupFile, writeFile, List.lookup]

/-- C8: when the config archive was fetched and extracted but the binary
archive download then fails (non-200 → `IOError`), the extracted config
directory stays on disk exactly as extracted — there is no rollback —
and classifying the version afterwards yields `CONFIG_ONLY`. -/
theorem pull_bin_failure_leaves_config_only
    (g : Global) (ca : ConfigArchive) (fs : VersionFs)
    (hu : g.user_is_casper = true) (hbr : g.binRootExists = true)
    (hcr : g.configRootExists = true)
    (hcd : fs.configDirExists = false) (hbd : fs.binDirExists = false)
    (hcn : fs.casperNodeExists = false) (hnn : g.networkName ≠ "") :
    pull_protocol_version g ⟨some ca, none⟩ fs =
      (.raised, extract_config_archive ca fs) ∧
    (extract_config_archive ca fs).configDirExists = true ∧
    (extract_config_archive ca fs).chainspec = ca.chainspec ∧
    (extract_config_archive ca fs).configExample = ca.configExample ∧
    check_staged_version g.networkName (extract_config_archive ca fs) =
      Except.ok Status.CONFIG_ONLY := by
  refine ⟨?_, rfl, rfl, rfl, ?_⟩
  · simp [pull_protocol_version, hu, hbr, hcr, hcd, hbd]
  · simp [check_staged_version, extract_config_archive, hcn, if_neg hnn]

/-- Witness for C8 at a concrete version state and archive. -/
theorem pull_bin_failure_leaves_config_only_witness :
    pull_protocol_version ⟨true, true, true, "casper"⟩
        ⟨some ⟨some ["name = 'casper'"], some "tmpl"⟩, none⟩
        ⟨false, false, false, none, none, none, none⟩ =
      (.raised, extract_config_archive ⟨some ["name = 'casper'"], some "tmpl"⟩
        ⟨false, false, false, none, none, none, none⟩) ∧
    check_staged_version "casper"
        (extract_config_archive ⟨some ["name = 'casper'"], some "tmpl"⟩
          ⟨false, false, false, none, none, none, none⟩) =
      Except.ok Status.CONFIG_ONLY := by
  have h := pull_bin_failure_leaves_config_only ⟨true, true, true, "casper"⟩
    ⟨some ["name = 'casper'"], some "tmpl"⟩
    ⟨false, false, false, none, none, none, none⟩
    rfl rfl rfl rfl rfl rfl (by decide)
  exact ⟨h.1, h.2.2.2.2⟩

/-- C9 counterexample: a version with an existing bin *directory* but no
`casper-node` file in it (and no config directory) is classified
`UNSTAGED`, yet `_pull_protocol_version` hits its abort branch
(`bin version path already exists`) — so the abort branch is reachable
under the orchestrator's precondition, contrary to the claim. -/
theorem pull_abort_reachable_under_unstaged :
    check_staged_version "casper" ⟨false, true, false, none, none, none, none⟩ =
      Except.ok Status.UNSTAGED ∧
    pull_protocol_version ⟨true, true, true, "casper"⟩
        ⟨some ⟨some ["name = 'casper'"], some "tmpl"⟩, some ⟨true⟩⟩
        ⟨false, true, false, none, none, none, none⟩ =
      (.exited 1, ⟨false, true, false, none, none, none, none⟩) := by decide

/-- C9 (amended): before any download `_pull_protocol_version` aborts
fatally when the config directory or the bin directory of the version
already exists, leaving the state untouched — it never overwrites
existing artifacts.  Classification `UNSTAGED` does imply the config
directory is absent, so the config-dir abort is unreachable from the
orchestrator; but `UNSTAGED` only guarantees the `casper-node` *file* is
absent, so the bin-dir abort can still fire.  When additionally the bin
directory is absent (and identity/roots are in order), no abort branch
is taken. -/
theorem pull_protocol_version_never_overwrites
    (g : Global) (net : VersionNet) (fs : VersionFs) :
    ((fs.configDirExists = true ∨ fs.binDirExists = true) →
      pull_protocol_version g net fs = (.exited 1, fs)) ∧
    (check_staged_version g.networkName fs = Except.ok Status.UNSTAGED →
      fs.configDirExists = false) ∧
    (g.user_is_casper = true → g.binRootExists = true →
      g.configRootExists = true → fs.configDirExists = false →
      fs.binDirExists = false →
      ∀ code, (pull_protocol_version g net fs).1 ≠ PullOutcome.exited code) := by
  obtain ⟨u, br, cr, nn⟩ := g
  obtain ⟨cd, bd, cn, cs, ct, ctn, ce⟩ := fs
  refine ⟨?_, ?_, ?_⟩
  · intro h
    simp only at h
    rcases h with h | h
    · subst h
      cases u <;> cases br <;> cases cr <;> simp [pull_protocol_version]
    · subst h
      cases u <;> cases br <;> cases cr <;> cases cd <;>
        simp [pull_protocol_version]
  · intro hcheck
    simp only
    cases cd with
    | false => rfl
    | true =>
      exfalso
      simp only [check_staged_version] at hcheck
      split at hcheck
      · exact absurd hcheck (by simp)
      · simp only [Bool.not_true, Bool.false_eq_true, if_false] at hcheck
        split at hcheck
        · exact absurd hcheck (by simp)
        · split at hcheck
          · exact absurd hcheck (by simp)
          · split at hcheck
            · exact absurd hcheck (by simp)
            · split at hcheck <;> exact absurd hcheck (by simp)
  · intro hu hbr hcr hcd hbd code
    simp only at hu hbr hcr hcd hbd
    subst hu; subst hbr; subst hcr; subst hcd; subst hbd
    rcases net with ⟨- | ca, - | ba⟩ <;> simp [pull_protocol_version]

/-- Witness for the amended C9: a fresh version with everything absent is
pulled without hitting any abort branch, and an `UNSTAGED`
classification comes with an absent config directory. -/
theorem pull_protocol_version_never_overwrites_witness :
    pull_protocol_version ⟨true, true, true, "casper"⟩
        ⟨some ⟨some ["name = 'casper'"], some "tmpl"⟩, some ⟨true⟩⟩
        ⟨true, false, false, none, none, none, none⟩ =
      (.exited 1, ⟨true, false, false, none, none, none, none⟩) ∧
    (⟨false, false, false, none, none, none, none⟩ : VersionFs).configDirExists
      = false ∧
    ∀ code,
      (pull_protocol_version ⟨true, true, true, "casper"⟩
          ⟨some ⟨some ["name = 'casper'"], some "tmpl"⟩, some ⟨true⟩⟩
          ⟨false, false, false, none, none, none, none⟩).1 ≠
        PullOutcome.exited code := by
  refine ⟨?_, ?_, ?_⟩
  · exact (pull_protocol_version_never_overwrites ⟨true, true, true, "casper"⟩
      ⟨some ⟨some ["name = 'casper'"], some "tmpl"⟩, some ⟨true⟩⟩
      ⟨true, false, false, none, none, none, none⟩).1 (Or.inl rfl)
  · exact (pull_protocol_version_never_overwrites ⟨true, true, true, "casper"⟩
      ⟨some ⟨some ["name = 'casper'"], some "tmpl"⟩, some ⟨true⟩⟩
      ⟨false, false, false, none, none, none, none⟩).2.1 (by decide)
  · exact (pull_protocol_version_never_overwrites ⟨true, true, true, "casper"⟩
      ⟨some ⟨some ["name = 'casper'"], some "tmpl"⟩, some ⟨true⟩⟩
      ⟨false, false, false, none, none, none, none⟩).2.2 rfl rfl rfl rfl rfl

/-- C2 (code bug): a run in which every corrective action succeeds — one
catalog version, initially `UNSTAGED`, both archives download and
extract, `config.toml` is materialized, and the version finishes
`STAGED` — still exits with code 1, because
`if not self._pull_protocol_version(...)` and
`if not self._config_from_example(...)` test the `None` those methods
always return.  The claimed equivalence "exit 0 iff everything staged"
fails at this input. -/
theorem stage_protocols_flags_fully_successful_run :
    stage_protocols ⟨true, true, true, "casper"⟩ (some "1.2.3.4") []
        [⟨⟨false, false, false, none, none, none, none⟩,
          ⟨some ⟨some ["name = 'casper'"], some "addr = '<IP ADDRESS>:35000'"⟩,
            some ⟨true⟩⟩⟩] =
      (.completed 1,
        [⟨true, true, true, some ["name = 'casper'"],
          some "addr = '1.2.3.4:35000'", none,
          some "addr = '<IP ADDRESS>:35000'"⟩]) ∧
    check_staged_version "casper"
        ⟨true, true, true, some ["name = 'casper'"],
          some "addr = '1.2.3.4:35000'", none,
          some "addr = '<IP ADDRESS>:35000'"⟩ =
      Except.ok Status.STAGED ∧
    process_exit_code (.completed 1) = 1 := by decide

/-- C3 (code bug): there is no try/except at the orchestrator boundary:
when the first version's config-archive fetch gets a non-200 reply, the
`IOError` raised by `_download_file` propagates out of
`stage_protocols` and the whole run crashes — the second catalog version
is never processed (its on-disk state is untouched and not even
classified), instead of the error being converted into a per-version
flag with processing continuing. -/
theorem stage_protocols_crashes_on_download_failure :
    stage_protocols ⟨true, true, true, "casper"⟩ (some "1.2.3.4") []
        [⟨⟨false, false, false, none, none, none, none⟩, ⟨none, some ⟨true⟩⟩⟩,
         ⟨⟨false, false, false, none, none, none, none⟩,
          ⟨some ⟨some ["name = 'casper'"], some "addr = '<IP ADDRESS>:35000'"⟩,
            some ⟨true⟩⟩⟩] =
      (.crashed,
        [⟨false, false, false, none, none, none, none⟩,
         ⟨false, false, false, none, none, none, none⟩]) ∧
    process_exit_code .crashed = 1 := by decide

/-- Witness for the amended C4 at a concrete fully-staged state. -/
theorem check_staged_version_total_when_chainspec_readable_witness :
    ∃ s : Status, check_staged_version "casper"
      ⟨true, true, true, some ["name = 'casper'"], some "cfg", none, none⟩ =
      Except.ok s :=
  check_staged_version_total_when_chainspec_readable "casper"
    ⟨true, true, true, some ["name = 'casper'"], some "cfg", none, none⟩
    (by decide) (by intro _ _ _; rfl)
